import Mathlib

/-!
# Verification of the barcode-books profile/book persistence model and scan pipeline

Shallow embedding of `src/app.js` (ISBN Scanner): the localStorage-backed
profile store and book store, the identifier validator, the metadata
resolver, and the scan/lookup/persist/sync pipeline, together with proofs
of the specified properties.

Storage is modelled as a partial map from string keys to stored values;
a stored value is either a serialized profile list, a serialized book
list, a raw string, or malformed content (content that `JSON.parse`
rejects).  External collaborators (the HTTP metadata providers, the sync
endpoint, the barcode decoder) are modelled by the data they deliver.
-/

namespace BarcodeBooks

/-- Profile `settings` bag (app.js: `{sheetName, scriptUrl, spreadsheetUrl}`).
An empty `scriptUrl` models an unset/unconfigured sync endpoint, matching
the JS truthiness test `if (s?.scriptUrl)`. -/
structure Settings where
  sheetName : String
  scriptUrl : String
  spreadsheetUrl : String
deriving DecidableEq

/-- A library profile (app.js `createProfile`: `{id, name, settings, createdAt}`). -/
structure Profile where
  id : String
  name : String
  settings : Settings
  createdAt : Nat
deriving DecidableEq

/-- A book record in the canonical shape produced by `lookupISBN` (app.js lines 89-124).
`pageCount` is rendered as a string; the JS value is a number or `''`. -/
structure Book where
  isbn : String
  title : String
  authors : String
  publisher : String
  publishedDate : String
  pageCount : String
  categories : String
  description : String
  coverUrl : String
  scannedAt : String
deriving DecidableEq

/-- A value held in localStorage.  `jsonProfiles`/`jsonBooks` are well-formed
serialized snapshots; `rawStr` is a plain string value (used for the active id);
`malformed` is content on which `JSON.parse` throws. -/
inductive StoredVal where
  | jsonProfiles (ps : List Profile)
  | jsonBooks (bs : List Book)
  | rawStr (s : String)
  | malformed
deriving DecidableEq

/-- localStorage: a partial map from keys to stored values. -/
def Storage : Type := String → Option StoredVal

/-- app.js line 12: `const PROFILES_KEY = 'isbn_profiles'`. -/
def PROFILES_KEY : String := "isbn_profiles"

/-- app.js line 13: `const ACTIVE_KEY = 'isbn_active'`. -/
def ACTIVE_KEY : String := "isbn_active"

/-- app.js line 14: ``const booksKey = id => `isbn_books_${id}` ``. -/
def booksKey (id : String) : String := "isbn_books_" ++ id

/-- `localStorage.setItem k v`. -/
def setItem (k : String) (v : StoredVal) (st : Storage) : Storage :=
  fun k2 => if k2 = k then some v else st k2

/-- `localStorage.removeItem k`. -/
def removeItem (k : String) (st : Storage) : Storage :=
  fun k2 => if k2 = k then none else st k2

/-- The empty storage (nothing stored). -/
def emptyStorage : Storage := fun _ => none

/-- app.js `loadProfiles` (lines 16-19): parse the stored snapshot; a missing key
yields `'[]'` hence `[]`, and a parse failure is caught and yields `[]`. -/
def loadProfiles (st : Storage) : List Profile :=
  match st PROFILES_KEY with
  | some (.jsonProfiles ps) => ps
  | _ => []

/-- app.js `saveProfiles` (line 20). -/
def saveProfiles (ps : List Profile) (st : Storage) : Storage :=
  setItem PROFILES_KEY (.jsonProfiles ps) st

/-- app.js `getActiveId` (line 21): `localStorage.getItem(ACTIVE_KEY) || ''`. -/
def getActiveId (st : Storage) : String :=
  match st ACTIVE_KEY with
  | some (.rawStr s) => s
  | _ => ""

/-- app.js `setActiveId` (line 22). -/
def setActiveId (id : String) (st : Storage) : Storage :=
  setItem ACTIVE_KEY (.rawStr id) st

/-- app.js `getActiveProfile` (lines 24-28):
empty list gives `null`; otherwise the profile found by the stored active id,
falling back to `all[0]`. -/
def getActiveProfile (st : Storage) : Option Profile :=
  match loadProfiles st with
  | [] => none
  | a :: rest =>
      some (((a :: rest).find? (fun p => p.id == getActiveId st)).getD a)

/-- app.js `createProfile` (lines 30-35).  The generated id
(`` `p_${Date.now()}_${random}` ``) and `Date.now()` are environment inputs,
passed as parameters.  Appends the profile, persists, and makes it active. -/
def createProfile (st : Storage) (idStr nm : String) (stg : Settings) (now : Nat) :
    Profile × Storage :=
  let p : Profile := { id := idStr, name := nm, settings := stg, createdAt := now }
  let all := loadProfiles st
  let st1 := saveProfiles (all ++ [p]) st
  (p, setActiveId p.id st1)

/-- app.js `deleteProfile` (lines 41-46): filter the profile out, persist,
remove its books snapshot, and re-derive the active id if it was deleted
(`all[0]?.id || ''`). -/
def deleteProfile (st : Storage) (id : String) : Storage :=
  let all := (loadProfiles st).filter (fun p => p.id != id)
  let st1 := saveProfiles all st
  let st2 := removeItem (booksKey id) st1
  if getActiveId st2 = id then
    setActiveId (match all with | [] => "" | a :: _ => a.id) st2
  else st2

/-- app.js `loadBooks` (lines 48-51): same totality discipline as `loadProfiles`. -/
def loadBooks (st : Storage) (id : String) : List Book :=
  match st (booksKey id) with
  | some (.jsonBooks bs) => bs
  | _ => []

/-- app.js `saveBook` (lines 52-58): if no record with the same isbn exists,
prepend (`unshift`) and persist; otherwise do nothing. -/
def saveBook (book : Book) (id : String) (st : Storage) : Storage :=
  let books := loadBooks st id
  if books.any (fun b => b.isbn == book.isbn) then st
  else setItem (booksKey id) (.jsonBooks (book :: books)) st

/-- app.js `removeBook` (lines 59-61). -/
def removeBook (isbn id : String) (st : Storage) : Storage :=
  setItem (booksKey id) (.jsonBooks ((loadBooks st id).filter (fun b => b.isbn != isbn))) st

/-- app.js `clearBooks` (line 62). -/
def clearBooks (id : String) (st : Storage) : Storage :=
  removeItem (booksKey id) st

/-- app.js `isScanned` (line 63). -/
def isScanned (isbn id : String) (st : Storage) : Bool :=
  (loadBooks st id).any (fun b => b.isbn == isbn)

/-! ## Identifier validator

The regex `/^\d{9}[\dX]$|^\d{13}$/` appears verbatim at the two call sites:
the decoder callback (app.js line 473, applied to the decoded text as-is) and
manual entry (line 763, applied after `.trim().replace(/[-\s]/g,'')`).
`matchesISBN` is the direct semantics of that anchored regex over the
character list of the string: either exactly ten characters whose first nine
are digits and whose last is a digit or `X`, or exactly thirteen digits. -/

/-- Semantics of the character class check on the tenth character: the regex
fragment `[\dX]$` demands exactly one remaining character, a digit or `X`. -/
def tailCheck : List Char → Bool
  | [c] => c.isDigit || c == 'X'
  | _ => false

/-- Semantics of `/^\d{9}[\dX]$|^\d{13}$/` (app.js lines 473 and 763). -/
def matchesISBN (cs : List Char) : Bool :=
  (cs.take 9).all Char.isDigit && tailCheck (cs.drop 9)
  || cs.length == 13 && cs.all Char.isDigit

/-- The validator applied to a whole string. -/
def isValidCode (s : String) : Bool := matchesISBN s.data

/-- The acceptance test the decoder callback applies to decoded text
(app.js line 473): the raw regex test, no normalization. -/
def decoderAccepts (text : String) : Bool := isValidCode text

/-- A character removed by the manual-entry normalization
`.replace(/[-\s]/g,'')` (app.js line 761): a hyphen or whitespace. -/
def strippable (c : Char) : Bool := c == '-' || c.isWhitespace

/-- Manual-entry normalization (app.js line 761):
`.trim()` then removal of every hyphen and whitespace character. -/
def stripManual (s : String) : String :=
  ⟨(s.trim).data.filter (fun c => !(strippable c))⟩

/-- The acceptance test of the manual-entry path (app.js line 763):
the same regex, applied to the stripped input. -/
def manualAccepts (s : String) : Bool := isValidCode (stripManual s)

/-! ## Metadata resolver

`lookupISBN` (app.js lines 82-125) queries Google Books, then Open Library,
then falls back to an empty record.  The two fetches are external; each is
modelled by the data it delivers: `none` stands for a network/parse failure
(the `catch {}` path) or, for Open Library, a response without the
`ISBN:<isbn>` key. -/

/-- The `volumeInfo` of a Google Books item (fields read at lines 89-99).
Optional fields model `undefined`; `pageCount` is a JS number. -/
structure GVolumeInfo where
  title : Option String
  authors : Option (List String)
  publisher : Option String
  publishedDate : Option String
  pageCount : Option Nat
  categories : Option (List String)
  description : Option String
  thumbnail : Option String
deriving DecidableEq

/-- A parsed Google Books response: `totalItems` and the `items` list
(each item contributing its `volumeInfo`). -/
structure GResp where
  totalItems : Nat
  items : List GVolumeInfo
deriving DecidableEq

/-- A name-bearing object in an Open Library response (`{name: ...}`). -/
structure OLName where
  name : String
deriving DecidableEq

/-- The record under the `ISBN:<isbn>` key of an Open Library response
(fields read at lines 110-121). -/
structure OLBookData where
  title : Option String
  authors : Option (List OLName)
  publishers : Option (List OLName)
  publish_date : Option String
  number_of_pages : Option Nat
  subjects : Option (List OLName)
  coverMedium : Option String
deriving DecidableEq

/-- `list.join(', ')`. -/
def joinComma (l : List String) : String := String.intercalate ", " l

/-- JS `n || ''` on an optional number field: `undefined` and `0` are falsy
and yield the empty string; other numbers are rendered as decimal text. -/
def numToField : Option Nat → String
  | some n => if n = 0 then "" else toString n
  | none => ""

/-- Whether `pat` occurs at the head of `cs`. -/
def headMatch : List Char → List Char → Bool
  | [], _ => true
  | _ :: _, [] => false
  | p :: ps, c :: cs => p == c && headMatch ps cs

/-- Locate the first occurrence of `pat` in a character list, returning the
characters before it and the characters after it. -/
def findOcc (pat : List Char) : List Char → Option (List Char × List Char)
  | [] => if pat.isEmpty then some ([], []) else none
  | c :: cs =>
      if headMatch pat (c :: cs) then some ([], (c :: cs).drop pat.length)
      else
        match findOcc pat cs with
        | some (b, a) => some (c :: b, a)
        | none => none

/-- JS `String.prototype.replace` with a string pattern: replace the first
occurrence only; if the pattern does not occur, return the string unchanged. -/
def replaceFirst (s pat rep : String) : String :=
  match findOcc pat.data s.data with
  | some (b, a) => ⟨b ++ rep.data ++ a⟩
  | none => s

/-- `info.imageLinks?.thumbnail?.replace('http:', 'https:') || ''`
(app.js line 98): a missing thumbnail gives the empty string. -/
def httpsThumb : Option String → String
  | some t => replaceFirst t "http:" "https:"
  | none => ""

/-- The record returned when both providers fail (app.js line 124):
the identifier, empty defaults for every other field, current timestamp. -/
def emptyRecord (isbn now : String) : Book :=
  { isbn := isbn, title := "", authors := "", publisher := "", publishedDate := "",
    pageCount := "", categories := "", description := "", coverUrl := "", scannedAt := now }

/-- The Google Books branch succeeds only when the response parsed, its
`totalItems` is positive, and `items` is non-empty (line 87: with
`totalItems > 0` but an empty `items`, `d.items[0].volumeInfo` throws, the
exception is swallowed, and control falls through to Open Library). -/
def primaryHit : Option GResp → Option GVolumeInfo
  | some d => if d.totalItems > 0 then d.items.head? else none
  | none => none

/-- app.js `lookupISBN` (lines 82-125) as a pure function of the identifier,
the two provider responses, and the timestamp `new Date().toISOString()`. -/
def lookupISBN (isbn : String) (g : Option GResp) (o : Option OLBookData)
    (now : String) : Book :=
  match primaryHit g with
  | some info =>
      { isbn := isbn,
        title := info.title.getD "",
        authors := joinComma (info.authors.getD []),
        publisher := info.publisher.getD "",
        publishedDate := info.publishedDate.getD "",
        pageCount := numToField info.pageCount,
        categories := joinComma (info.categories.getD []),
        description := info.description.getD "",
        coverUrl := httpsThumb info.thumbnail,
        scannedAt := now }
  | none =>
      match o with
      | some b =>
          { isbn := isbn,
            title := b.title.getD "",
            authors := joinComma ((b.authors.getD []).map OLName.name),
            publisher := joinComma ((b.publishers.getD []).map OLName.name),
            publishedDate := b.publish_date.getD "",
            pageCount := numToField b.number_of_pages,
            categories := joinComma (((b.subjects.getD []).take 3).map OLName.name),
            description := "",
            coverUrl := b.coverMedium.getD "",
            scannedAt := now }
      | none => emptyRecord isbn now

/-! ## Scan pipeline state machine

`handleISBN` (app.js lines 500-540) is an async function over the module
globals `activeProfile`, `books`, `syncStatuses`, `processing`.  JavaScript
is single-threaded: other handlers (notably `switchProfile`, lines 381-389)
can only interleave at the two `await` suspension points, the metadata
lookup (line 514) and the sync dispatch (line 525).  We therefore model the
application as a state machine whose events are: an identifier arriving at
`handleISBN`, the lookup settling, the sync dispatch settling, and a
profile switch.  DOM-only effects (toasts, renders, the camera) are not
state and are omitted. -/

/-- Sync status tag (app.js line 167: `'pending' | 'synced' | 'error'`). -/
inductive SyncStatus where
  | pending
  | synced
  | error
deriving DecidableEq

/-- Where the single in-flight `handleISBN` run is suspended, if anywhere. -/
inductive Pipe where
  | idle
  | awaitingLookup (isbn : String)
  | awaitingSync (isbn : String)
deriving DecidableEq

/-- The module-global mutable state of app.js (lines 161-168) together with
localStorage. -/
structure AppState where
  store : Storage
  activeProfile : Option Profile
  booksCache : List Book
  syncStatuses : String → Option SyncStatus
  processing : Bool
  pipeline : Pipe

/-- `syncStatuses[k] = v`. -/
def updMap (m : String → Option SyncStatus) (k : String) (v : SyncStatus) :
    String → Option SyncStatus :=
  fun k2 => if k2 = k then some v else m k2

/-- An event at which the interleaving semantics takes a step. -/
inductive Event where
  | scan (isbn : String)
  | lookupSettled (book : Book)
  | syncSettled (ok : Bool)
  | switchTo (id : String)
deriving DecidableEq

/-- One step of the application.

* `scan i`: `handleISBN(i)` up to its first suspension (lines 500-514):
  dropped if `processing` is set, if there is no active profile, or if the
  identifier is already scanned for the active profile; otherwise
  `processing = true` and the run suspends at `await lookupISBN`.
* `lookupSettled b`: resumption at line 515.  The save re-reads the global
  `activeProfile` (`saveBook(book, activeProfile.id)`); if a profile switch
  emptied it meanwhile, the property access throws, is caught (line 533),
  and `finally` clears `processing`.  With `scriptUrl` configured the run
  marks the identifier `pending` and suspends at `await syncToSheet`
  (lines 521-525); otherwise it finishes.
* `syncSettled ok`: resumption at line 526: writes `synced`/`error` into the
  current `syncStatuses` map, then `finally` clears `processing`.
* `switchTo id`: `switchProfile` (lines 381-389): stores the active id,
  re-resolves `activeProfile`, reloads the book cache
  (`loadBooks(activeProfile?.id)`: a missing profile coerces to the key
  `"isbn_books_undefined"`), and resets `syncStatuses` to a fresh empty map. -/
def stepEv (s : AppState) : Event → AppState
  | .scan i =>
      if s.processing = true then s
      else
        match s.activeProfile with
        | none => s
        | some p =>
            if isScanned i p.id s.store then s
            else { s with processing := true, pipeline := .awaitingLookup i }
  | .lookupSettled b =>
      match s.pipeline with
      | .awaitingLookup i =>
          match s.activeProfile with
          | none => { s with processing := false, pipeline := .idle }
          | some p =>
              let st := saveBook b p.id s.store
              if p.settings.scriptUrl ≠ "" then
                { s with store := st, booksCache := loadBooks st p.id,
                         syncStatuses := updMap s.syncStatuses i .pending,
                         pipeline := .awaitingSync i }
              else
                { s with store := st, booksCache := loadBooks st p.id,
                         processing := false, pipeline := .idle }
      | _ => s
  | .syncSettled ok =>
      match s.pipeline with
      | .awaitingSync i =>
          { s with syncStatuses := updMap s.syncStatuses i (if ok then .synced else .error),
                   processing := false, pipeline := .idle }
      | _ => s
  | .switchTo id =>
      let st := setActiveId id s.store
      let ap := getActiveProfile st
      { s with store := st, activeProfile := ap,
               booksCache := loadBooks st ((ap.map Profile.id).getD "undefined"),
               syncStatuses := fun _ => none }

/-- Application start-up (app.js lines 659-662): resolve the active profile
and load its books (`loadBooks(activeProfile?.id || '')`); `syncStatuses`
starts empty, nothing is processing. -/
def bootState (st : Storage) : AppState :=
  let ap := getActiveProfile st
  { store := st, activeProfile := ap,
    booksCache := loadBooks st ((ap.map Profile.id).getD ""),
    syncStatuses := fun _ => none, processing := false, pipeline := .idle }

/-- Run a sequence of events. -/
def runEvents (s : AppState) (es : List Event) : AppState := es.foldl stepEv s

/-- The states the application can reach: any start-up state, closed under
steps. -/
inductive Reachable : AppState → Prop where
  | boot (st : Storage) : Reachable (bootState st)
  | step (s : AppState) (e : Event) : Reachable s → Reachable (stepEv s e)

/-! ## Storage-key lemmas

The per-profile books key is injective and collides with neither of the
fixed keys, which is what makes per-profile book snapshots independent. -/

theorem booksKey_inj {a b : String} (h : booksKey a = booksKey b) : a = b := by
  have hd := congrArg String.data h
  simp only [booksKey, String.data_append] at hd
  obtain ⟨la⟩ := a
  obtain ⟨lb⟩ := b
  exact congrArg String.mk (List.append_cancel_left hd)

theorem booksKey_ne_profiles (id : String) : booksKey id ≠ PROFILES_KEY := by
  intro h
  have hd := congrArg String.data h
  simp only [booksKey, PROFILES_KEY, String.data_append] at hd
  simp at hd

theorem booksKey_ne_active (id : String) : booksKey id ≠ ACTIVE_KEY := by
  intro h
  have hd := congrArg String.data h
  simp only [booksKey, ACTIVE_KEY, String.data_append] at hd
  simp at hd

theorem profiles_ne_active : PROFILES_KEY ≠ ACTIVE_KEY := by decide

/-! ## Pointwise load/store lemmas -/

theorem loadBooks_setItem_self (id : String) (bs : List Book) (st : Storage) :
    loadBooks (setItem (booksKey id) (.jsonBooks bs) st) id = bs := by
  simp [loadBooks, setItem]

theorem loadBooks_setItem_ne (k : String) (v : StoredVal) (st : Storage) (id : String)
    (h : booksKey id ≠ k) : loadBooks (setItem k v st) id = loadBooks st id := by
  simp [loadBooks, setItem, h]

theorem loadBooks_removeItem_self (st : Storage) (id : String) :
    loadBooks (removeItem (booksKey id) st) id = [] := by
  simp [loadBooks, removeItem]

theorem loadBooks_removeItem_ne (k : String) (st : Storage) (id : String)
    (h : booksKey id ≠ k) : loadBooks (removeItem k st) id = loadBooks st id := by
  simp [loadBooks, removeItem, h]

theorem loadProfiles_saveProfiles (ps : List Profile) (st : Storage) :
    loadProfiles (saveProfiles ps st) = ps := by
  simp [loadProfiles, saveProfiles, setItem]

theorem loadProfiles_setItem_ne (k : String) (v : StoredVal) (st : Storage)
    (h : PROFILES_KEY ≠ k) : loadProfiles (setItem k v st) = loadProfiles st := by
  simp [loadProfiles, setItem, h]

theorem loadProfiles_removeItem_ne (k : String) (st : Storage)
    (h : PROFILES_KEY ≠ k) : loadProfiles (removeItem k st) = loadProfiles st := by
  simp [loadProfiles, removeItem, h]

theorem getActiveId_setItem_ne (k : String) (v : StoredVal) (st : Storage)
    (h : ACTIVE_KEY ≠ k) : getActiveId (setItem k v st) = getActiveId st := by
  simp [getActiveId, setItem, h]

theorem loadBooks_saveBook_ne (b : Book) (pid : String) (st : Storage) (q : String)
    (h : q ≠ pid) : loadBooks (saveBook b pid st) q = loadBooks st q := by
  by_cases hc : (loadBooks st pid).any (fun x => x.isbn == b.isbn) = true
  · have : saveBook b pid st = st := by simp only [saveBook, hc, if_true]
    rw [this]
  · have hc0 : (loadBooks st pid).any (fun x => x.isbn == b.isbn) = false := by
      simpa using hc
    have : saveBook b pid st
        = setItem (booksKey pid) (.jsonBooks (b :: loadBooks st pid)) st := by
      simp only [saveBook, hc0, Bool.false_eq_true, if_false]
    rw [this]
    exact loadBooks_setItem_ne _ _ _ _ (fun hk => h (booksKey_inj hk))

theorem saveBook_of_present (book : Book) (id : String) (st : Storage)
    (h : (loadBooks st id).any (fun b => b.isbn == book.isbn) = true) :
    saveBook book id st = st := by
  simp [saveBook, h]

theorem loadBooks_saveBook_absent (book : Book) (id : String) (st : Storage)
    (h : (loadBooks st id).any (fun b => b.isbn == book.isbn) = false) :
    loadBooks (saveBook book id st) id = book :: loadBooks st id := by
  simp only [saveBook, h, Bool.false_eq_true, if_false]
  exact loadBooks_setItem_self id _ st

/-! ## Concrete fixtures (profiles, storages) used by witnesses -/

/-- A settings bag with no sync endpoint configured. -/
def noSync : Settings := { sheetName := "", scriptUrl := "", spreadsheetUrl := "" }

/-- A settings bag with a sync endpoint configured. -/
def withSync : Settings :=
  { sheetName := "Books", scriptUrl := "https://script.example/exec", spreadsheetUrl := "" }

def profA : Profile := { id := "p_a", name := "Home", settings := noSync, createdAt := 0 }

def profB : Profile := { id := "p_b", name := "Office", settings := noSync, createdAt := 1 }

def profS : Profile := { id := "p_s", name := "Synced", settings := withSync, createdAt := 2 }

/-! ## C1: Book Store add contract -/

/-- C1: for every book record and profile id, if a record with the same
`isbn` already exists in that profile's collection then `saveBook` leaves
the storage unchanged (a silent no-op); otherwise the collection afterwards
is exactly the record prepended to the old collection (so the record sits
at the front of the list); consequently, adding twice with the same `isbn`
leaves exactly one record with that `isbn` whenever the collection held at
most one such record beforehand. -/
theorem saveBook_add_contract (st : Storage) (book : Book) (id : String) :
    ((loadBooks st id).any (fun b => b.isbn == book.isbn) = true →
       saveBook book id st = st)
    ∧ ((loadBooks st id).any (fun b => b.isbn == book.isbn) = false →
       loadBooks (saveBook book id st) id = book :: loadBooks st id)
    ∧ ((loadBooks st id).countP (fun b => b.isbn == book.isbn) ≤ 1 →
       (loadBooks (saveBook book id (saveBook book id st)) id).countP
         (fun b => b.isbn == book.isbn) = 1) := by
  refine ⟨fun h => by simp [saveBook, h], fun h => ?_, fun hle => ?_⟩
  · simp only [saveBook, h, Bool.false_eq_true, if_false]
    exact loadBooks_setItem_self id _ st
  · by_cases h : (loadBooks st id).any (fun b => b.isbn == book.isbn) = true
    · have h1 : saveBook book id st = st := by simp [saveBook, h]
      rw [h1, h1]
      have hpos : 0 < (loadBooks st id).countP (fun b => b.isbn == book.isbn) :=
        List.countP_pos_iff.mpr (by simpa using List.any_eq_true.mp h)
      omega
    · have h0 : (loadBooks st id).any (fun b => b.isbn == book.isbn) = false := by
        simpa using h
      have h1 : loadBooks (saveBook book id st) id = book :: loadBooks st id := by
        simp only [saveBook, h0, Bool.false_eq_true, if_false]
        exact loadBooks_setItem_self id _ st
      set st1 := saveBook book id st with hst1
      have hany : (loadBooks st1 id).any (fun b => b.isbn == book.isbn) = true := by
        rw [h1]; simp
      have h2 : saveBook book id st1 = st1 := by
        simp only [saveBook, hany, if_true]
      rw [h2, h1, List.countP_cons_of_pos _ _ (by simp)]
      have hz : (loadBooks st id).countP (fun b => b.isbn == book.isbn) = 0 := by
        rw [List.countP_eq_zero]
        intro a ha hpa
        exact h (List.any_eq_true.mpr ⟨a, ha, hpa⟩)
      omega

/-- Fixture: a stored collection for profile `p_a` holding one record. -/
def bkA : Book := emptyRecord "9780134190440" "t1"

/-- Fixture: a second record with a different isbn. -/
def bkB : Book := emptyRecord "9780316769488" "t2"

/-- Fixture storage: profile `p_a` owns `[bkA]`. -/
def c1Store : Storage := setItem (booksKey "p_a") (.jsonBooks [bkA]) emptyStorage

theorem saveBook_add_contract_witness :
    saveBook bkA "p_a" c1Store = c1Store
    ∧ loadBooks (saveBook bkB "p_a" c1Store) "p_a" = bkB :: loadBooks c1Store "p_a"
    ∧ (loadBooks (saveBook bkB "p_a" (saveBook bkB "p_a" c1Store)) "p_a").countP
        (fun b => b.isbn == bkB.isbn) = 1 :=
  ⟨(saveBook_add_contract c1Store bkA "p_a").1 (by decide),
   (saveBook_add_contract c1Store bkB "p_a").2.1 (by decide),
   (saveBook_add_contract c1Store bkB "p_a").2.2 (by decide)⟩

/-! ## C2: Metadata Resolver totality -/

/-- C2: `lookupISBN` is a total function (it never fails its caller): on
every path — primary-provider match, secondary-provider match, or both
providers failing — the returned record's `isbn` equals the queried
identifier and its `scannedAt` is the current timestamp, and when both
providers fail the result is exactly the empty-default record: every other
field is the empty string. -/
theorem lookupISBN_total_contract (i : String) (g : Option GResp)
    (o : Option OLBookData) (now : String) :
    (lookupISBN i g o now).isbn = i
    ∧ (lookupISBN i g o now).scannedAt = now
    ∧ (primaryHit g = none → o = none →
        lookupISBN i g o now = emptyRecord i now
        ∧ (lookupISBN i g o now).title = ""
        ∧ (lookupISBN i g o now).authors = ""
        ∧ (lookupISBN i g o now).publisher = ""
        ∧ (lookupISBN i g o now).publishedDate = ""
        ∧ (lookupISBN i g o now).pageCount = ""
        ∧ (lookupISBN i g o now).categories = ""
        ∧ (lookupISBN i g o now).description = ""
        ∧ (lookupISBN i g o now).coverUrl = "") := by
  refine ⟨?_, ?_, fun h1 h2 => ?_⟩
  · unfold lookupISBN
    cases primaryHit g with
    | some info => rfl
    | none => cases o with
      | some b => rfl
      | none => rfl
  · unfold lookupISBN
    cases primaryHit g with
    | some info => rfl
    | none => cases o with
      | some b => rfl
      | none => rfl
  · simp [lookupISBN, h1, h2, emptyRecord]

theorem lookupISBN_total_contract_witness :
    lookupISBN "9999999999999" none none "2024-01-01T00:00:00.000Z"
        = emptyRecord "9999999999999" "2024-01-01T00:00:00.000Z"
    ∧ (lookupISBN "9999999999999" none none "2024-01-01T00:00:00.000Z").isbn
        = "9999999999999" :=
  ⟨((lookupISBN_total_contract "9999999999999" none none
      "2024-01-01T00:00:00.000Z").2.2 rfl rfl).1,
   (lookupISBN_total_contract "9999999999999" none none
      "2024-01-01T00:00:00.000Z").1⟩

/-! ## C5: Identifier validation -/

/-- The spec's reading of `^\d{9}[\dX]$`: exactly ten characters, the first
nine decimal digits, the tenth a decimal digit or `X`. -/
def SpecTen (s : String) : Prop :=
  s.data.length = 10 ∧ (∀ c ∈ s.data.take 9, c.isDigit = true) ∧
    ∃ c, s.data.drop 9 = [c] ∧ (c.isDigit = true ∨ c = 'X')

/-- The spec's reading of `^\d{13}$`: exactly thirteen decimal digits. -/
def SpecThirteen (s : String) : Prop :=
  s.data.length = 13 ∧ ∀ c ∈ s.data, c.isDigit = true

theorem tailCheck_iff (l : List Char) :
    tailCheck l = true ↔ ∃ c, l = [c] ∧ (c.isDigit = true ∨ c = 'X') := by
  cases l with
  | nil => simp [tailCheck]
  | cons c rest =>
    cases rest with
    | nil => simp [tailCheck]
    | cons d r2 => simp [tailCheck]

/-- C5: the validator accepts a string exactly when it matches
`^\d{9}[\dX]$` or `^\d{13}$`, and this same acceptance condition is the one
applied to decoder output (checked as-is) and to manual input (after the
caller strips hyphens and whitespace). -/
theorem validator_accepts_iff (s : String) :
    (isValidCode s = true ↔ SpecTen s ∨ SpecThirteen s)
    ∧ decoderAccepts s = isValidCode s
    ∧ manualAccepts s = isValidCode (stripManual s) := by
  refine ⟨?_, rfl, rfl⟩
  unfold isValidCode matchesISBN
  rw [Bool.or_eq_true, Bool.and_eq_true, Bool.and_eq_true, tailCheck_iff]
  constructor
  · rintro (⟨h9, c, hdrop, hc⟩ | ⟨hlen, hall⟩)
    · left
      have hl : s.data.length = 10 := by
        have hlen9 := congrArg List.length hdrop
        simp only [List.length_drop, List.length_cons, List.length_nil] at hlen9
        omega
      exact ⟨hl, fun ch hch => (List.all_eq_true.mp h9) ch hch, c, hdrop, hc⟩
    · right
      exact ⟨by simpa using hlen, fun c hc => (List.all_eq_true.mp hall) c hc⟩
  · rintro (⟨_, h9, c, hdrop, hc⟩ | ⟨hlen, hall⟩)
    · left
      exact ⟨List.all_eq_true.mpr (fun ch hch => h9 ch hch), c, hdrop, hc⟩
    · right
      exact ⟨by simpa using hlen, List.all_eq_true.mpr hall⟩

/-! ## C7: Profile deletion cascade and isolation -/

/-- C7: deleting a profile removes it from the profile list and deletes its
entire book collection, while every other profile's book collection is left
unchanged. -/
theorem deleteProfile_cascade_isolation (st : Storage) (id : String) :
    loadBooks (deleteProfile st id) id = []
    ∧ (∀ q, q ≠ id → loadBooks (deleteProfile st id) q = loadBooks st q)
    ∧ loadProfiles (deleteProfile st id)
        = (loadProfiles st).filter (fun p => p.id != id) := by
  refine ⟨?_, fun q hq => ?_, ?_⟩
  · simp only [deleteProfile, setActiveId]
    split
    · rw [loadBooks_setItem_ne _ _ _ _ (booksKey_ne_active id)]
      exact loadBooks_removeItem_self _ id
    · exact loadBooks_removeItem_self _ id
  · have hbk : booksKey q ≠ booksKey id := fun hk => hq (booksKey_inj hk)
    simp only [deleteProfile, setActiveId]
    split
    · rw [loadBooks_setItem_ne _ _ _ _ (booksKey_ne_active q),
          loadBooks_removeItem_ne _ _ _ hbk]
      exact loadBooks_setItem_ne _ _ _ _ (booksKey_ne_profiles q)
    · rw [loadBooks_removeItem_ne _ _ _ hbk]
      exact loadBooks_setItem_ne _ _ _ _ (booksKey_ne_profiles q)
  · simp only [deleteProfile, setActiveId]
    split
    · rw [loadProfiles_setItem_ne _ _ _ profiles_ne_active,
          loadProfiles_removeItem_ne _ _ (booksKey_ne_profiles id).symm]
      exact loadProfiles_saveProfiles _ st
    · rw [loadProfiles_removeItem_ne _ _ (booksKey_ne_profiles id).symm]
      exact loadProfiles_saveProfiles _ st

/-- Fixture storage for C7: two profiles, each owning one book. -/
def c7Store : Storage :=
  setItem (booksKey "p_b") (.jsonBooks [bkB])
    (setItem (booksKey "p_a") (.jsonBooks [bkA])
      (saveProfiles [profA, profB] (setActiveId "p_a" emptyStorage)))

theorem deleteProfile_cascade_isolation_witness :
    loadBooks (deleteProfile c7Store "p_a") "p_a" = []
    ∧ loadBooks (deleteProfile c7Store "p_a") "p_b" = loadBooks c7Store "p_b" :=
  ⟨(deleteProfile_cascade_isolation c7Store "p_a").1,
   (deleteProfile_cascade_isolation c7Store "p_a").2.1 "p_b" (by decide)⟩

/-! ## C8: Active-profile resolution -/

theorem find?_id_of_mem {ps : List Profile} {aid : String} {p : Profile}
    (hnd : (ps.map Profile.id).Nodup) (hm : p ∈ ps) (hid : p.id = aid) :
    ps.find? (fun x => x.id == aid) = some p := by
  induction ps with
  | nil => cases hm
  | cons a rest ih =>
    have hnd2 : (a.id :: rest.map Profile.id).Nodup := by simpa using hnd
    rcases List.mem_cons.mp hm with rfl | hmr
    · exact List.find?_cons_of_pos _ (by simp [hid])
    · by_cases ha : a.id = aid
      · exfalso
        have : a.id ∈ rest.map Profile.id := by
          rw [ha, ← hid]; exact List.mem_map_of_mem _ hmr
        exact (List.nodup_cons.mp hnd2).1 this
      · rw [List.find?_cons_of_neg _ (by simpa using ha)]
        exact ih (List.nodup_cons.mp hnd2).2 hmr

theorem getActiveId_setActiveId (id : String) (st : Storage) :
    getActiveId (setActiveId id st) = id := by
  simp [getActiveId, setActiveId, setItem]

theorem getActiveProfile_nil {st : Storage} (h : loadProfiles st = []) :
    getActiveProfile st = none := by
  unfold getActiveProfile
  rw [h]

theorem getActiveProfile_cons {st : Storage} {a : Profile} {l : List Profile}
    (h : loadProfiles st = a :: l) :
    getActiveProfile st
      = some (((a :: l).find? (fun p => p.id == getActiveId st)).getD a) := by
  unfold getActiveProfile
  rw [h]

/-- C8: `getActiveProfile` resolves the stored active id against the
profile list: on an empty list it returns `none`; when a listed profile's
id equals the stored active id it returns that profile; when no profile
matches the stored id, or the id is unset (empty), it returns the first
profile; and a freshly created profile becomes the active one.  The
hypotheses are the store invariants the code maintains: generated ids are
pairwise distinct and non-empty. -/
theorem getActiveProfile_resolution (st : Storage)
    (hnd : ((loadProfiles st).map Profile.id).Nodup)
    (hne : ∀ p ∈ loadProfiles st, p.id ≠ "") :
    (loadProfiles st = [] → getActiveProfile st = none)
    ∧ (∀ p ∈ loadProfiles st, p.id = getActiveId st → getActiveProfile st = some p)
    ∧ (∀ a l, loadProfiles st = a :: l →
        (∀ p ∈ loadProfiles st, p.id ≠ getActiveId st) → getActiveProfile st = some a)
    ∧ (∀ a l, loadProfiles st = a :: l → getActiveId st = "" →
        getActiveProfile st = some a)
    ∧ (∀ idStr nm stg now, idStr ∉ (loadProfiles st).map Profile.id →
        getActiveProfile (createProfile st idStr nm stg now).2
          = some (createProfile st idStr nm stg now).1) := by
  have hmain : ∀ a l, loadProfiles st = a :: l →
      (∀ p ∈ loadProfiles st, p.id ≠ getActiveId st) → getActiveProfile st = some a := by
    intro a l hps hall
    rw [getActiveProfile_cons hps]
    have hfn : (a :: l).find? (fun x => x.id == getActiveId st) = none := by
      rw [List.find?_eq_none]
      intro x hx
      simpa using hall x (hps ▸ hx)
    rw [hfn]
    rfl
  refine ⟨fun h => getActiveProfile_nil h, ?_, hmain, ?_, ?_⟩
  · intro p hm hid
    rcases hps : loadProfiles st with _ | ⟨a, rest⟩
    · rw [hps] at hm; cases hm
    · rw [hps] at hm hnd
      rw [getActiveProfile_cons hps, find?_id_of_mem hnd hm hid]
      rfl
  · intro a l hps hunset
    exact hmain a l hps (fun p hp => hunset ▸ hne p hp)
  · intro idStr nm stg now hfresh
    have hnewP : (createProfile st idStr nm stg now).1
        = { id := idStr, name := nm, settings := stg, createdAt := now } := rfl
    have hst2 : (createProfile st idStr nm stg now).2
        = setActiveId idStr (saveProfiles (loadProfiles st
            ++ [{ id := idStr, name := nm, settings := stg, createdAt := now }]) st) := rfl
    rw [hnewP, hst2]
    set stBig := setActiveId idStr (saveProfiles (loadProfiles st
        ++ [{ id := idStr, name := nm, settings := stg, createdAt := now }]) st)
      with hstBig
    have hlp : loadProfiles stBig
        = loadProfiles st
            ++ [{ id := idStr, name := nm, settings := stg, createdAt := now }] := by
      rw [hstBig]
      simp only [setActiveId]
      rw [loadProfiles_setItem_ne _ _ _ profiles_ne_active]
      exact loadProfiles_saveProfiles _ st
    have haid : getActiveId stBig = idStr := by
      rw [hstBig]
      exact getActiveId_setActiveId _ _
    have hfn : (loadProfiles st).find? (fun x => x.id == idStr) = none := by
      rw [List.find?_eq_none]
      intro x hx hb
      refine hfresh ?_
      have hxi : x.id = idStr := by simpa using hb
      rw [← hxi]
      exact List.mem_map_of_mem _ hx
    rcases hps : loadProfiles st with _ | ⟨a, rest⟩
    · rw [hps, List.nil_append] at hlp
      rw [getActiveProfile_cons hlp, haid]
      simp
    · rw [hps] at hfn
      rw [hps, List.cons_append] at hlp
      rw [getActiveProfile_cons hlp, haid]
      have hred : (a :: (rest
            ++ [{ id := idStr, name := nm, settings := stg, createdAt := now }])).find?
            (fun x => x.id == idStr)
          = some { id := idStr, name := nm, settings := stg, createdAt := now } := by
        rw [← List.cons_append, List.find?_append, hfn]
        simp
      rw [hred]
      rfl

/-- Fixture storage for C8: two profiles, `p_a` active. -/
def c8Store : Storage := saveProfiles [profA, profB] (setActiveId "p_a" emptyStorage)

theorem getActiveProfile_resolution_witness :
    getActiveProfile emptyStorage = none
    ∧ getActiveProfile c8Store = some profA
    ∧ getActiveProfile (createProfile emptyStorage "p_h" "Home" noSync 0).2
        = some (createProfile emptyStorage "p_h" "Home" noSync 0).1 :=
  ⟨(getActiveProfile_resolution emptyStorage (by decide) (by decide)).1 (by decide),
   (getActiveProfile_resolution c8Store (by decide) (by decide)).2.1 profA (by decide)
     (by decide),
   (getActiveProfile_resolution emptyStorage (by decide) (by decide)).2.2.2.2
     "p_h" "Home" noSync 0 (by decide)⟩

/-! ## C9: Profile-switch frame condition -/

/-- C9: switching the active profile empties the entire Sync Status map and
leaves every profile's persisted book collection (and the profile list
itself) unchanged. -/
theorem switchProfile_frame (s : AppState) (id : String) :
    (∀ k, (stepEv s (.switchTo id)).syncStatuses k = none)
    ∧ (∀ q, loadBooks (stepEv s (.switchTo id)).store q = loadBooks s.store q)
    ∧ loadProfiles (stepEv s (.switchTo id)).store = loadProfiles s.store := by
  refine ⟨fun k => rfl, fun q => ?_, ?_⟩
  · show loadBooks (setActiveId id s.store) q = loadBooks s.store q
    simp only [setActiveId]
    exact loadBooks_setItem_ne _ _ _ _ (booksKey_ne_active q)
  · show loadProfiles (setActiveId id s.store) = loadProfiles s.store
    simp only [setActiveId]
    exact loadProfiles_setItem_ne _ _ _ profiles_ne_active

/-! ## C6: Single-flight gate -/

/-- The `processing` flag is set whenever the pipeline is suspended at an
`await` (the code sets it at line 505 before the first `await` and clears it
only in the `finally` at line 537). -/
theorem processing_of_not_idle {s : AppState} (h : Reachable s) :
    s.pipeline ≠ .idle → s.processing = true := by
  induction h with
  | boot st => intro hne; exact absurd rfl hne
  | step s e _ ih =>
    cases e with
    | scan i =>
      by_cases hp : s.processing = true
      · simp [stepEv, hp]
      · rcases hap : s.activeProfile with _ | p
        · simpa [stepEv, hp, hap] using ih
        · by_cases hsc : isScanned i p.id s.store
          · simpa [stepEv, hp, hap, hsc] using ih
          · intro _
            simp [stepEv, hp, hap, hsc]
    | lookupSettled b =>
      rcases hpl : s.pipeline with _ | i | i
      · simp [stepEv, hpl]
      · rcases hap : s.activeProfile with _ | p
        · simp [stepEv, hpl, hap]
        · by_cases hsc : p.settings.scriptUrl ≠ ""
          · intro _
            simp only [stepEv, hpl, hap, if_pos hsc]
            exact ih (by simp [hpl])
          · simp [stepEv, hpl, hap, hsc]
      · simpa [stepEv, hpl] using ih
    | syncSettled ok =>
      rcases hpl : s.pipeline with _ | i | i
      · simp [stepEv, hpl]
      · simpa [stepEv, hpl] using ih
      · simp [stepEv, hpl]
    | switchTo id =>
      simpa [stepEv] using ih

/-- C6: single-flight gate: in every reachable state in which a scan is in
flight (the pipeline is not idle), a newly arriving identifier leaves the
state completely unchanged — it is not queued, looked up, or persisted, so
only the already-running scan's record is ultimately persisted.
Equivalently, whenever the `processing` flag is set, `handleISBN` returns
at its first line. -/
theorem singleFlight_drop (s : AppState) (i : String) :
    (Reachable s → s.pipeline ≠ .idle → stepEv s (.scan i) = s)
    ∧ (s.processing = true → stepEv s (.scan i) = s) := by
  constructor
  · intro hr hni
    have hp := processing_of_not_idle hr hni
    simp [stepEv, hp]
  · intro hp
    simp [stepEv, hp]

/-- Fixture storage for the pipeline scenarios: three profiles, `p_a`
active, no books stored yet. -/
def pipeStore : Storage :=
  saveProfiles [profA, profB, profS] (setActiveId "p_a" emptyStorage)

/-- Fixture: the state after a scan of `9781861972712` has entered the
pipeline and is awaiting its metadata lookup. -/
def c6s1 : AppState := stepEv (bootState pipeStore) (.scan "9781861972712")

theorem singleFlight_drop_witness :
    stepEv c6s1 (.scan "9780316769488") = c6s1 ∧ c6s1.processing = true :=
  ⟨(singleFlight_drop c6s1 "9780316769488").1
      (Reachable.step (bootState pipeStore) (.scan "9781861972712")
        (Reachable.boot pipeStore))
      (by decide),
   by decide⟩

/-! ## C10: load totality on corrupt or missing storage -/

/-- C10: loading the profile list or a profile's book collection is total:
a missing or malformed stored snapshot loads as the empty list rather than
raising, and on such a state `getActiveProfile` returns `none`. -/
theorem load_total_on_corrupt (st : Storage) :
    ((st PROFILES_KEY = none ∨ st PROFILES_KEY = some .malformed) →
       loadProfiles st = [] ∧ getActiveProfile st = none)
    ∧ (∀ id, (st (booksKey id) = none ∨ st (booksKey id) = some .malformed) →
       loadBooks st id = []) := by
  constructor
  · intro h
    have hl : loadProfiles st = [] := by
      rcases h with h | h <;> simp [loadProfiles, h]
    exact ⟨hl, by simp [getActiveProfile, hl]⟩
  · intro id h
    rcases h with h | h <;> simp [loadBooks, h]

/-- Fixture: a storage whose profile list snapshot is malformed and whose
books snapshot for `p_a` is malformed. -/
def corruptStore : Storage :=
  setItem (booksKey "p_a") .malformed (setItem PROFILES_KEY .malformed emptyStorage)

theorem load_total_on_corrupt_witness :
    (loadProfiles corruptStore = [] ∧ getActiveProfile corruptStore = none)
    ∧ loadBooks corruptStore "p_a" = [] :=
  ⟨(load_total_on_corrupt corruptStore).1 (Or.inr (by decide)),
   (load_total_on_corrupt corruptStore).2 "p_a" (Or.inr (by decide))⟩

/-! ## C3: profile id used by the persisting step

`handleISBN` re-reads the module global `activeProfile` *after* the lookup
`await` (line 515: `saveBook(book, activeProfile.id)`); it does not capture
the profile id at scan start.  A profile switch during the in-flight lookup
therefore redirects the write to the newly active profile. -/

/-- The identifier scanned in the C3/C4 scenarios. -/
def scannedIsbn : String := "9780747532743"

/-- The record the metadata lookup resolves for `scannedIsbn`. -/
def bkScanned : Book := emptyRecord scannedIsbn "t3"

/-- Fixture: scan under active profile `p_a`, then switch to `p_b` while
the lookup is still in flight. -/
def c3s2 : AppState :=
  runEvents (bootState pipeStore) [.scan scannedIsbn, .switchTo "p_b"]

/-- C3 counterexample: the scan starts while `p_a` is active; the user
switches to `p_b` before the lookup settles; when it settles, the record is
persisted into `p_b`'s collection and `p_a`'s collection stays empty — the
opposite of the claim that the write is keyed by the profile id captured at
scan start. -/
theorem handleISBN_capturedProfile_cex :
    c3s2.pipeline = Pipe.awaitingLookup scannedIsbn
    ∧ c3s2.activeProfile = some profB
    ∧ loadBooks (stepEv c3s2 (.lookupSettled bkScanned)).store "p_a" = []
    ∧ loadBooks (stepEv c3s2 (.lookupSettled bkScanned)).store "p_b" = [bkScanned] := by
  decide

/-- C3 (amended): the Book Store write at the persisting step uses the
profile id that is active when the metadata lookup settles, not the one
active at scan start: the settling run prepends the record to the *current*
active profile's collection (when the identifier is not already there) and
leaves every other profile's collection unchanged. -/
theorem handleISBN_savesToCurrentProfile (s : AppState) (i : String) (b : Book)
    (q : Profile) (hpipe : s.pipeline = .awaitingLookup i)
    (hap : s.activeProfile = some q) :
    ((loadBooks s.store q.id).any (fun x => x.isbn == b.isbn) = false →
       loadBooks (stepEv s (.lookupSettled b)).store q.id
         = b :: loadBooks s.store q.id)
    ∧ (∀ r, r ≠ q.id →
       loadBooks (stepEv s (.lookupSettled b)).store r = loadBooks s.store r) := by
  constructor
  · intro hnew
    simp only [stepEv, hpipe, hap]
    split
    · exact loadBooks_saveBook_absent b q.id s.store hnew
    · exact loadBooks_saveBook_absent b q.id s.store hnew
  · intro r hr
    simp only [stepEv, hpipe, hap]
    split
    · exact loadBooks_saveBook_ne b q.id s.store r hr
    · exact loadBooks_saveBook_ne b q.id s.store r hr

theorem handleISBN_savesToCurrentProfile_witness :
    loadBooks (stepEv c3s2 (.lookupSettled bkScanned)).store "p_b"
      = bkScanned :: loadBooks c3s2.store "p_b"
    ∧ loadBooks (stepEv c3s2 (.lookupSettled bkScanned)).store "p_a"
      = loadBooks c3s2.store "p_a" :=
  ⟨(handleISBN_savesToCurrentProfile c3s2 scannedIsbn bkScanned profB
      (by decide) (by decide)).1 (by decide),
   (handleISBN_savesToCurrentProfile c3s2 scannedIsbn bkScanned profB
      (by decide) (by decide)).2 "p_a" (by decide)⟩

/-! ## C4: no stale-write guard for sync status

After `await syncToSheet` settles, line 526 writes
`syncStatuses[isbn] = ok ? 'synced' : 'error'` into the current global map
unconditionally; nothing checks whether the active profile is still the one
the scan ran under.  A switch mid-flight replaces the map with an empty one
(line 385), and the late write then populates that — now-active — map. -/

/-- Fixture storage for C4: sync-configured profile `p_s` active. -/
def syncStore : Storage := saveProfiles [profS, profB] (setActiveId "p_s" emptyStorage)

/-- Fixture: scan under `p_s` (sync configured), lookup settles while `p_s`
is still active (so the run suspends at the sync dispatch with the status
`pending`), then the user switches to `p_b` before the dispatch settles. -/
def c4s3 : AppState :=
  runEvents (bootState syncStore)
    [.scan scannedIsbn, .lookupSettled bkScanned, .switchTo "p_b"]

/-- C4 counterexample: at `c4s3` the profile has been switched away
(`p_b` is active, the Sync Status map is empty) while the sync dispatch of
the `p_s`-scan is still in flight; when the dispatch settles, the `synced`
result is *applied* to the now-active profile's Sync Status map instead of
being discarded. -/
theorem syncStatus_staleWrite_cex :
    c4s3.activeProfile = some profB
    ∧ c4s3.syncStatuses scannedIsbn = none
    ∧ c4s3.pipeline = Pipe.awaitingSync scannedIsbn
    ∧ (stepEv c4s3 (.syncSettled true)).syncStatuses scannedIsbn
        = some SyncStatus.synced := by
  decide

/-- C4 (amended): there is no stale-write guard: whenever the sync dispatch
settles, the `synced`/`error` result is written into the *current* Sync
Status map under the scanned identifier — also when the active profile was
switched away mid-flight (a switch empties the map, but the late-settling
write then populates the now-active map).  Storage is untouched and the
pipeline returns to idle. -/
theorem syncSettled_writesCurrentMap (s : AppState) (i : String) (ok : Bool)
    (h : s.pipeline = .awaitingSync i) :
    (stepEv s (.syncSettled ok)).syncStatuses i
        = some (if ok then SyncStatus.synced else SyncStatus.error)
    ∧ (stepEv s (.syncSettled ok)).store = s.store
    ∧ (stepEv s (.syncSettled ok)).pipeline = Pipe.idle
    ∧ (stepEv s (.syncSettled ok)).processing = false := by
  refine ⟨?_, ?_, ?_, ?_⟩ <;> simp [stepEv, h, updMap]

theorem syncSettled_writesCurrentMap_witness :
    (stepEv c4s3 (.syncSettled true)).syncStatuses scannedIsbn
        = some SyncStatus.synced
    ∧ (stepEv c4s3 (.syncSettled true)).store = c4s3.store :=
  ⟨(syncSettled_writesCurrentMap c4s3 scannedIsbn true (by decide)).1,
   (syncSettled_writesCurrentMap c4s3 scannedIsbn true (by decide)).2.1⟩

end BarcodeBooks
